import Mathlib

/-!
Verification development for the Aker SSH gateway core
(src/SSHClient.py, src/session.py, src/aker.py, src/IdPFactory.py).

The Python source is shallowly embedded: each relevant routine becomes an
executable Lean function over explicit state, and the effects that matter to
the specification (bytes written to local stdout, bytes sent to the remote
channel, observer-hook invocations, terminal-mode changes, cleanup actions,
raised exceptions) are recorded in traces.  Observer hooks on the data path
(`stdin_filter`, `channel_filter`, `sigwinch`) are modelled as returning
normally; a raising observer hook is the subject of the `stop_sniffer`
development below, which models hook failure explicitly.
-/

namespace Aker

/-! ### The multiplexing loop — `SSHClient.interactive_shell`

One iteration of the `while True` loop corresponds to one wake-up of
`select.select([self.channel, sys.stdin], [], [])`:

* `chanData = some chunk` — the channel was ready and `self.channel.recv(10240)`
  returned `chunk` (the bytes; `some []` is a zero-length read, which breaks
  the loop).  `none` covers both "channel not ready" and the `socket.timeout`
  branch (`pass`), which fall through to the stdin check alike.
* `stdinData = some buf` — `sys.stdin` was ready and `os.read` returned `buf`.
* `writeBlocked` — the `os.write(sys.stdout.fileno(), x)` for this iteration
  raised `OSError` with `errno.EAGAIN`; the source then executes `continue`,
  which abandons the chunk and skips the stdin branch of this iteration.
* `raises` — an unexpected exception (I/O error, interrupted call) occurred at
  this wake-up and propagates out of the loop into the `finally` block.
-/

structure Iter where
  chanData : Option (List Nat)
  stdinData : Option (List Nat)
  writeBlocked : Bool
  raises : Bool
  deriving Repr, DecidableEq

/-- Observer ("sniffer") hook invocations recorded by the data path. -/
inductive HookCall where
  | channel_filter (sniffer : Nat) (bytes : List Nat)
  | stdin_filter (sniffer : Nat) (bytes : List Nat)
  deriving Repr, DecidableEq

/-- State threaded through `interactive_shell`: bytes written to local stdout,
bytes sent to the remote channel, observer-hook trace, current terminal mode
and how many times `termios.tcsetattr(..., oldtty)` (the restore) ran. -/
structure LoopState where
  stdoutBytes : List Nat
  sentBytes : List Nat
  hookCalls : List HookCall
  tty : Nat
  ttyRestores : Nat
  deriving Repr, DecidableEq

/-- The abstract terminal mode installed by `tty.setraw` / `tty.setcbreak`. -/
def rawMode : Nat := 0

inductive ExitKind where
  | remoteClosed   -- zero-length `recv`: `break`
  | exhausted      -- no more readiness events in the modelled trace
  | excepted       -- an exception propagated out of the loop body
  deriving Repr, DecidableEq

/-- The `if sys.stdin in r:` branch of the loop body: read `buf`, feed every
sniffer's `stdin_filter`, then `self.channel.send(buf)`. -/
def stdinBranch (sniffers : List Nat) (it : Iter) (st : LoopState) : LoopState :=
  match it.stdinData with
  | some buf =>
      { st with
        hookCalls := st.hookCalls ++ sniffers.map (fun s => HookCall.stdin_filter s buf)
        sentBytes := st.sentBytes ++ buf }
  | none => st

/-- The `while True:` body of `SSHClient.interactive_shell`, driven by the
modelled readiness trace `iters`. -/
def runLoop (sniffers : List Nat) : List Iter → LoopState → LoopState × ExitKind
  | [], st => (st, ExitKind.exhausted)
  | it :: rest, st =>
    if it.raises then (st, ExitKind.excepted)
    else
      match it.chanData with
      | some chunk =>
        if chunk.isEmpty then (st, ExitKind.remoteClosed)
        else
          let st' := { st with
            hookCalls := st.hookCalls ++ sniffers.map (fun s => HookCall.channel_filter s chunk) }
          if it.writeBlocked then
            -- `except OSError: if msg.errno == errno.EAGAIN: continue`
            runLoop sniffers rest st'
          else
            runLoop sniffers rest
              (stdinBranch sniffers it { st' with stdoutBytes := st'.stdoutBytes ++ chunk })
      | none => runLoop sniffers rest (stdinBranch sniffers it st)

/-- `SSHClient.interactive_shell` from an arbitrary prior state:
`oldtty = termios.tcgetattr(sys.stdin)`, switch to raw/cbreak mode, run the
loop, and in the `finally` block restore `oldtty` (on every exit path). -/
def interactive_shellFrom (sniffers : List Nat) (st : LoopState) (iters : List Iter) :
    LoopState × ExitKind :=
  let r := runLoop sniffers iters { st with tty := rawMode }
  ({ r.1 with tty := st.tty, ttyRestores := r.1.ttyRestores + 1 }, r.2)

/-- Fresh state at loop entry with terminal mode `tty0`. -/
def initState (tty0 : Nat) : LoopState :=
  { stdoutBytes := [], sentBytes := [], hookCalls := [], tty := tty0, ttyRestores := 0 }

/-- `SSHClient.interactive_shell` as called on a fresh session. -/
def interactive_shell (sniffers : List Nat) (tty0 : Nat) (iters : List Iter) :
    LoopState × ExitKind :=
  interactive_shellFrom sniffers (initState tty0) iters

/-- The chunks actually returned by `self.channel.recv` before the loop ended
(up to, and excluding, the first zero-length read or exception). -/
def readChunks : List Iter → List (List Nat)
  | [] => []
  | it :: rest =>
    if it.raises then []
    else
      match it.chanData with
      | some chunk => if chunk.isEmpty then [] else chunk :: readChunks rest
      | none => readChunks rest

/-- The observer-hook calls the loop itself emits for a readiness trace
(channel chunks are shown to `channel_filter` before the stdout write, so a
blocked write still leaves the hook calls in place). -/
def stdinBranchHooks (sniffers : List Nat) (it : Iter) : List HookCall :=
  match it.stdinData with
  | some buf => sniffers.map (fun s => HookCall.stdin_filter s buf)
  | none => []

def loopHooks (sniffers : List Nat) : List Iter → List HookCall
  | [] => []
  | it :: rest =>
    if it.raises then []
    else
      match it.chanData with
      | some chunk =>
        if chunk.isEmpty then []
        else
          sniffers.map (fun s => HookCall.channel_filter s chunk) ++
            (if it.writeBlocked then loopHooks sniffers rest
             else stdinBranchHooks sniffers it ++ loopHooks sniffers rest)
      | none => stdinBranchHooks sniffers it ++ loopHooks sniffers rest

/-- The single-iteration trace on which claim C1 fails: the channel delivers
chunk `[7]`, the stdout write raises `EAGAIN`, and the loop `continue`s. -/
def c1Input : List Iter :=
  [{ chanData := some [7], stdinData := none, writeBlocked := true, raises := false }]

/-! ### The non-interactive dispatch — `SSHClient._start_session` /
`SSHClient.run_command`

In `_start_session`, when `SSH_ORIGINAL_COMMAND` is set the source executes
`self.channel.exec_command(os.environ['SSH_ORIGINAL_COMMAND'])` and then calls
`self.run_command()`, which feeds the command string to every sniffer's
`stdin_filter` and finally enters `interactive_shell`. -/

inductive StartEv where
  | execCmd (cmd : List Nat)          -- `channel.exec_command(command)`
  | stdinHook (sniffer : Nat) (cmd : List Nat)  -- `sniffer.stdin_filter(command)`
  | loopStart                          -- `interactive_shell` entered
  deriving Repr, DecidableEq

/-- Event order of `SSHClient.run_command`. -/
def run_commandEvents (sniffers : List Nat) (cmd : List Nat) : List StartEv :=
  sniffers.map (fun s => StartEv.stdinHook s cmd) ++ [StartEv.loopStart]

/-- Event order of the non-interactive branch of `SSHClient._start_session`. -/
def execPathEvents (sniffers : List Nat) (cmd : List Nat) : List StartEv :=
  StartEv.execCmd cmd :: run_commandEvents sniffers cmd

/-- `SSHClient.run_command` at the observer-trace level: the command is shown
to every sniffer's `stdin_filter`, then `interactive_shell` runs. -/
def run_command (sniffers : List Nat) (cmd : List Nat) (tty0 : Nat) (iters : List Iter) :
    LoopState × ExitKind :=
  interactive_shellFrom sniffers
    { initState tty0 with
        hookCalls := sniffers.map (fun s => HookCall.stdin_filter s cmd) }
    iters

/-! ### Observer stop hooks — `Client.stop_sniffer`

`def stop_sniffer(self): for sniffer in self.sniffers: sniffer.stop()` — the
body has no try/except, so a raising `stop()` propagates immediately. -/

structure SnifferSpec where
  sid : Nat
  stopFails : Bool
  deriving Repr, DecidableEq

/-- `Client.stop_sniffer`: returns the ids whose `stop()` was invoked (in
order, the raiser included) and the id of the first raiser, if any — a
`some` second component means the exception reached the caller. -/
def stop_sniffer : List SnifferSpec → List Nat × Option Nat
  | [] => ([], none)
  | s :: rest =>
    if s.stopFails then ([s.sid], some s.sid)
    else
      let r := stop_sniffer rest
      (s.sid :: r.1, r.2)

/-- The sniffer list on which claim C3 fails: the first observer's stop hook
raises, the second observer never hears about the stop. -/
def c3Sniffers : List SnifferSpec :=
  [{ sid := 0, stopFails := true }, { sid := 1, stopFails := false }]

/-! ### The credential chain — `User.get_priv_key` (src/aker.py) and
`SSHClient.start_session` / `SSHSession.start_session`

`get_priv_key` returns `agent.get_keys()[0]` whenever the agent offers any
key; only with an empty agent does it read `~/.ssh/id_rsa`, and a failure to
load that file raises `Exception("Core: Invalid Private Key")`.
`SSHClient.start_session` tries `auth_publickey` with the one selected key and
falls back to `auth_password(user, getpass.getpass())` on
`AuthenticationException`.  `SSHSession.start_session` calls `get_priv_key`
outside its try block, so a key-loading failure aborts before any remote
authentication attempt. -/

structure Key where
  kid : Nat
  deriving Repr, DecidableEq

structure AuthEnv where
  agentKeys : List Key
  fileKey : Option Key   -- `none`: `RSAKey.from_private_key_file` raised
  deriving Repr, DecidableEq

inductive AuthEvent where
  | auth_publickey (k : Key)     -- `transport.auth_publickey(user, key)`
  | auth_password_prompted       -- `transport.auth_password(user, getpass.getpass())`
  | invalid_key_error            -- `raise Exception("Core: Invalid Private Key")`
  deriving Repr, DecidableEq

/-- `User.get_priv_key`. -/
def get_priv_key (env : AuthEnv) : Except Unit Key :=
  match env.agentKeys with
  | k :: _ => Except.ok k
  | [] =>
    match env.fileKey with
    | some k => Except.ok k
    | none => Except.error ()

/-- The authentication attempts made by `SSHClient.start_session` for a key
secret, given which keys the remote server accepts. -/
def start_session_auth (accepts : Key → Bool) (k : Key) : List AuthEvent :=
  if accepts k then [AuthEvent.auth_publickey k]
  else [AuthEvent.auth_publickey k, AuthEvent.auth_password_prompted]

/-- The full credential-resolution trace of `SSHSession.start_session`. -/
def session_auth_trace (accepts : Key → Bool) (env : AuthEnv) : List AuthEvent :=
  match get_priv_key env with
  | Except.error _ => [AuthEvent.invalid_key_error]
  | Except.ok k => start_session_auth accepts k

/-- The server policy of the C4 counterexample: every key except key 0 is
acceptable. -/
def c4accepts : Key → Bool := fun k => !(k.kid == 0)

/-- The environment of the C4 counterexample: the agent offers keys 0 and 1
(key 1 acceptable), and `~/.ssh/id_rsa` holds acceptable key 2. -/
def c4env : AuthEnv := { agentKeys := [{ kid := 0 }, { kid := 1 }], fileKey := some { kid := 2 } }

/-! ### Session teardown — `SSHClient.start_session`, `SSHClient._start_session`,
`Session.close_session`

`_start_session` ends with `self.channel.close(); self._session.close_session();
transport.close(); self._socket.close()` — callback *between* channel close and
transport close, no per-step exception handling.  `start_session` wraps the
whole body in `try: ... finally: self._session.close_session(); if transport:
transport.close(); self._socket.close()`, again without per-step handling, so
on a successful run every step of the finally block repeats. -/

inductive CleanupAct where
  | closeChannel      -- `self.channel.close()`
  | invokeCallback    -- `self._session.close_session()` → `session_end_callback`
  | closeTransport    -- `transport.close()`
  | closeSocket       -- `self._socket.close()`
  deriving Repr, DecidableEq

/-- Which calls raise in a modelled run.  `bodyRaises` means the session body
(auth, shell setup, or the multiplexing loop) raised before reaching
`_start_session`'s trailing cleanup lines. -/
structure FailSpec where
  bodyRaises : Bool
  channelCloseFails : Bool
  callbackFails : Bool
  transportCloseFails : Bool
  socketCloseFails : Bool
  deriving Repr, DecidableEq

/-- A straight-line sequence of cleanup calls with no exception handling:
each is invoked in turn until one raises; the raiser is still recorded as
attempted, the remainder is skipped.  Result: (attempted acts, raised?). -/
def runSeq : List (CleanupAct × Bool) → List CleanupAct × Bool
  | [] => ([], false)
  | (a, fails) :: rest =>
    if fails then ([a], true)
    else
      let r := runSeq rest
      (a :: r.1, r.2)

/-- The trailing cleanup lines of `SSHClient._start_session` (skipped entirely
when the body raised earlier; the exception propagates). -/
def start_session_inner_cleanup (f : FailSpec) : List CleanupAct × Bool :=
  if f.bodyRaises then ([], true)
  else
    runSeq [(CleanupAct.closeChannel, f.channelCloseFails),
            (CleanupAct.invokeCallback, f.callbackFails),
            (CleanupAct.closeTransport, f.transportCloseFails),
            (CleanupAct.closeSocket, f.socketCloseFails)]

/-- The cleanup behaviour of `SSHClient.start_session`: the `_start_session`
body, then the `finally` block.  An exception raised in the finally block
replaces the body's exception; if the finally block completes, the body's
exception (if any) propagates. -/
def start_session_cleanup (f : FailSpec) : List CleanupAct × Bool :=
  let body := start_session_inner_cleanup f
  let fin := runSeq [(CleanupAct.invokeCallback, f.callbackFails),
                     (CleanupAct.closeTransport, f.transportCloseFails),
                     (CleanupAct.closeSocket, f.socketCloseFails)]
  (body.1 ++ fin.1, if fin.2 then true else body.2)

/-- The no-failure run: every close call and the callback return normally. -/
def allOk : FailSpec :=
  { bodyRaises := false, channelCloseFails := false, callbackFails := false,
    transportCloseFails := false, socketCloseFails := false }

/-- The C5 counterexample's second run: the session body raised and the
completion callback raises inside the finally block. -/
def bodyAndCallbackFail : FailSpec :=
  { bodyRaises := true, channelCloseFails := false, callbackFails := true,
    transportCloseFails := false, socketCloseFails := false }

/-- `Session.close_session`: `self.aker.session_end_callback(self)` — appends
one completion-callback invocation for the session to the event log; the
callback body only logs, so the call never raises. -/
def close_session (log : List Nat) (sid : Nat) : List Nat :=
  log ++ [sid]

/-! ### Command dispatch — `main` (src/aker.py) with `SSHSession.__init__` /
`Session.__init__` (src/session.py)

`command = os.environ.get('SSH_ORIGINAL_COMMAND', '').strip()`;
`is_proxy = 'host=' in command` is a *substring* test; the term scan takes the
last `host=` / `port=` token, `port` defaulting to the integer 22; then
`assert host is not None`; `Session.__init__` applies `int(port)`. -/

/-- Python `str.strip()` (space is the representative whitespace). -/
def pyStrip (s : List Char) : List Char :=
  ((s.dropWhile (fun c => c = ' ')).reverse.dropWhile (fun c => c = ' ')).reverse

/-- Python `term.startswith('host=')`. -/
def startsWithHostEq : List Char → Bool
  | 'h' :: 'o' :: 's' :: 't' :: '=' :: _ => true
  | _ => false

/-- Python `term.startswith('port=')`. -/
def startsWithPortEq : List Char → Bool
  | 'p' :: 'o' :: 'r' :: 't' :: '=' :: _ => true
  | _ => false

/-- Python `'host=' in command` (substring containment). -/
def containsHostEq : List Char → Bool
  | [] => false
  | c :: rest => startsWithHostEq (c :: rest) || containsHostEq rest

/-- Python `command.split(' ')` (consecutive separators yield empty terms). -/
def splitSp : List Char → List (List Char)
  | [] => [[]]
  | c :: rest =>
    match splitSp rest with
    | [] => [[c]]      -- unreachable: splitSp never returns []
    | t :: ts => if c = ' ' then [] :: t :: ts else (c :: t) :: ts

/-- Python `int(...)` on a non-negative decimal string, as `Session.__init__`
applies to the `port=` token's value. -/
def pyInt (s : List Char) : Nat :=
  s.foldl (fun acc c => acc * 10 + (c.toNat - '0'.toNat)) 0

inductive DispatchMode where
  | interactive                          -- `aker.build_tui()`
  | proxy (host : List Char) (port : Nat)  -- `SSHSession(aker, host, uuid, port)`
  | assertFailed                         -- `assert host is not None` fired
  deriving Repr, DecidableEq

/-- `main` in src/aker.py, composed with the `int(port)` conversion done by
`Session.__init__` when the session is created. -/
def mainDispatch (origCmd : List Char) : DispatchMode :=
  let command := pyStrip origCmd
  if containsHostEq command then
    let terms := splitSp command
    let host := terms.foldl
      (fun acc t => if startsWithHostEq t then some (t.drop 5) else acc) none
    let portTok := terms.foldl
      (fun acc t => if startsWithPortEq t then some (t.drop 5) else acc) none
    match host with
    | none => DispatchMode.assertFailed
    | some h =>
      DispatchMode.proxy h (match portTok with | none => 22 | some p => pyInt p)
  else DispatchMode.interactive

def cmdHostPort : List Char :=
  ['h', 'o', 's', 't', '=', 'd', 'b', '1', ' ', 'p', 'o', 'r', 't', '=', '2', '2', '2', '2']

def cmdHostOnly : List Char := ['h', 'o', 's', 't', '=', 'd', 'b', '1']

def hostDb1 : List Char := ['d', 'b', '1']

/-- The C7 counterexample input: `ghost=1` has no `host=` token but does
contain `host=` as a substring. -/
def cmdGhost : List Char := ['g', 'h', 'o', 's', 't', '=', '1']

/-! ### The identity-provider registry — `IdPFactory.getIdP`

`idp = "idp." + choice; idp_module = importlib.import_module(idp);
idp_class = getattr(idp_module, choice)` — an unresolvable module raises the
interpreter's generic `ImportError`, a missing class the generic
`AttributeError`; the source defines no error types of its own.  The
constructors `providerNotFound` / `providerLoadError` below are modelled from
the spec's claimed typed errors solely so the claim is statable; `getIdP`
never produces them. -/

structure PyModules where
  mods : List (String × List String)   -- importable module name ↦ its attributes
  deriving Repr, DecidableEq

inductive PyExc where
  | importError (modname : String)
  | attributeError (attr : String)
  | providerNotFound (provider : String)
  | providerLoadError (provider : String)
  deriving Repr, DecidableEq

/-- `IdPFactory.getIdP`. -/
def getIdP (env : PyModules) (choice : String) : Except PyExc (String × String) :=
  let idp := "idp." ++ choice
  match env.mods.lookup idp with
  | none => Except.error (PyExc.importError idp)
  | some attrs =>
    if attrs.contains choice then Except.ok (idp, choice)
    else Except.error (PyExc.attributeError choice)

/-- Whether a raised exception is one of the spec's typed provider errors. -/
def isTypedProviderError : PyExc → Bool
  | PyExc.providerNotFound _ => true
  | PyExc.providerLoadError _ => true
  | _ => false

/-! ### Resize propagation — `SSHClient.sigwinch`

On each `SIGWINCH` delivery: query the current console dimensions, call
`self.channel.resize_pty(columns, lines)`, then call every sniffer's
`sigwinch(columns, lines)` in attachment order. -/

structure PtyState where
  ptySize : Nat × Nat                      -- remote pseudo-terminal (columns, lines)
  resizeCalls : List (Nat × Nat × Nat)     -- (sniffer, columns, lines) hook trace
  deriving Repr, DecidableEq

/-- `SSHClient.sigwinch` for one notification whose queried dimensions are
`dims`. -/
def sigwinch (sniffers : List Nat) (st : PtyState) (dims : Nat × Nat) : PtyState :=
  { ptySize := dims,
    resizeCalls := st.resizeCalls ++ sniffers.map (fun s => (s, dims.1, dims.2)) }

/-- A whole session's worth of resize notifications, delivered in order. -/
def deliverResizes (sniffers : List Nat) (st : PtyState) (notes : List (Nat × Nat)) : PtyState :=
  notes.foldl (sigwinch sniffers) st

/-! ## Structural lemmas about the multiplexing loop -/

theorem stdinBranch_stdoutBytes (sn : List Nat) (it : Iter) (st : LoopState) :
    (stdinBranch sn it st).stdoutBytes = st.stdoutBytes := by
  unfold stdinBranch
  cases it.stdinData <;> rfl

theorem stdinBranch_ttyRestores (sn : List Nat) (it : Iter) (st : LoopState) :
    (stdinBranch sn it st).ttyRestores = st.ttyRestores := by
  unfold stdinBranch
  cases it.stdinData <;> rfl

theorem stdinBranch_hookCalls (sn : List Nat) (it : Iter) (st : LoopState) :
    (stdinBranch sn it st).hookCalls = st.hookCalls ++ stdinBranchHooks sn it := by
  unfold stdinBranch stdinBranchHooks
  cases it.stdinData <;> simp

theorem runLoop_ttyRestores (sn : List Nat) (iters : List Iter) (st : LoopState) :
    ((runLoop sn iters st).1).ttyRestores = st.ttyRestores := by
  induction iters generalizing st with
  | nil => rfl
  | cons it rest ih =>
    unfold runLoop
    by_cases hr : it.raises
    · simp [hr]
    · simp only [hr, if_false, Bool.false_eq_true]
      cases hc : it.chanData with
      | none => simp [ih, stdinBranch_ttyRestores]
      | some chunk =>
        by_cases hce : chunk.isEmpty
        · simp [hce]
        · by_cases hw : it.writeBlocked <;> simp [hce, hw, ih, stdinBranch_ttyRestores]

/-- If no stdout write blocks before the loop ends, the loop writes to local
output exactly the concatenation of the chunks it read from the channel. -/
theorem runLoop_stdout (sn : List Nat) (iters : List Iter) (st : LoopState)
    (h : ∀ it ∈ iters, it.writeBlocked = false) :
    ((runLoop sn iters st).1).stdoutBytes = st.stdoutBytes ++ (readChunks iters).flatten := by
  induction iters generalizing st with
  | nil => simp [runLoop, readChunks]
  | cons it rest ih =>
    have hit : it.writeBlocked = false := h it (by simp)
    have hrest : ∀ i ∈ rest, i.writeBlocked = false := fun i hi => h i (by simp [hi])
    unfold runLoop
    by_cases hr : it.raises
    · simp [hr, readChunks]
    · simp only [hr, if_false, Bool.false_eq_true]
      cases hc : it.chanData with
      | none => simp [readChunks, hc, hr, ih _ hrest, stdinBranch_stdoutBytes]
      | some chunk =>
        by_cases hce : chunk.isEmpty
        · simp [hce, readChunks, hc, hr]
        · simp [hce, hit, readChunks, hc, hr, ih _ hrest, stdinBranch_stdoutBytes]

/-- The loop's observer-hook trace extends the initial trace by `loopHooks`. -/
theorem runLoop_hookCalls (sn : List Nat) (iters : List Iter) (st : LoopState) :
    ((runLoop sn iters st).1).hookCalls = st.hookCalls ++ loopHooks sn iters := by
  induction iters generalizing st with
  | nil => simp [runLoop, loopHooks]
  | cons it rest ih =>
    unfold runLoop loopHooks
    by_cases hr : it.raises
    · simp [hr]
    · simp only [hr, if_false, Bool.false_eq_true]
      cases hc : it.chanData with
      | none => simp [ih, stdinBranch_hookCalls]
      | some chunk =>
        by_cases hce : chunk.isEmpty
        · simp [hce]
        · by_cases hw : it.writeBlocked <;>
            simp [hce, hw, ih, stdinBranch_hookCalls, List.append_assoc]

/-! ## Claim theorems -/

/-- **C2** (confirmed): for every observer list, every initial terminal mode and
every readiness trace — hence for every exit path of the loop: remote close,
trace exhaustion, or a propagating exception/signal — the terminal mode after
`interactive_shell` returns equals the mode saved at entry, and the
`termios.tcsetattr(..., oldtty)` restore in the `finally` block runs exactly
once. -/
theorem interactive_shell_restores_terminal (sn : List Nat) (tty0 : Nat) (iters : List Iter) :
    (interactive_shell sn tty0 iters).1.tty = tty0 ∧
    (interactive_shell sn tty0 iters).1.ttyRestores = 1 := by
  unfold interactive_shell interactive_shellFrom
  refine ⟨rfl, ?_⟩
  simp [runLoop_ttyRestores, initState]

/-- **C1** (counterexample): on `c1Input` the loop reads the single chunk `[7]`
(no zero-length read occurs), so the claim requires local output `[7]`; the
code's `continue` on `EAGAIN` drops the chunk and local output is `[]` — the
chunk is lost, never retried. -/
theorem interactive_shell_drops_blocked_chunk :
    (readChunks c1Input).flatten = [7] ∧
    (interactive_shell [] 0 c1Input).1.stdoutBytes = [] ∧
    (interactive_shell [] 0 c1Input).1.stdoutBytes ≠ (readChunks c1Input).flatten := by
  refine ⟨rfl, rfl, ?_⟩
  decide

/-- **C1** (amended): provided no local write raises `EAGAIN` during the run,
the bytes delivered to local output equal the concatenation of the chunks read
from the channel up to (excluding) the first zero-length read, in order.  (A
blocked write is indeed not treated as an error — the loop keeps running — but
the blocked chunk is dropped rather than retried, as the counterexample
shows.) -/
theorem interactive_shell_output_concat (sn : List Nat) (tty0 : Nat) (iters : List Iter)
    (h : ∀ it ∈ iters, it.writeBlocked = false) :
    (interactive_shell sn tty0 iters).1.stdoutBytes = (readChunks iters).flatten := by
  unfold interactive_shell interactive_shellFrom
  simp [runLoop_stdout sn iters _ h, initState]

/-- Witness for `interactive_shell_output_concat` at a concrete trace: two
chunks, an interleaved stdin read, then a zero-length read. -/
theorem interactive_shell_output_concat_witness :
    (interactive_shell [0] 5
      [{ chanData := some [1, 2], stdinData := none, writeBlocked := false, raises := false },
       { chanData := some [3], stdinData := some [9], writeBlocked := false, raises := false },
       { chanData := some [], stdinData := none, writeBlocked := false, raises := false }]).1.stdoutBytes
      = [1, 2, 3] := by
  have := interactive_shell_output_concat [0] 5
    [{ chanData := some [1, 2], stdinData := none, writeBlocked := false, raises := false },
     { chanData := some [3], stdinData := some [9], writeBlocked := false, raises := false },
     { chanData := some [], stdinData := none, writeBlocked := false, raises := false }]
    (by decide)
  simpa using this

/-- **C3** (counterexample): with two attached observers where the first one's
stop hook raises, `stop_sniffer` invokes only observer 0, observer 1 never
receives the stop call, and the exception reaches the caller (second component
`some 0`) — nothing is caught or logged, so the caller's cleanup does not
proceed past the raise. -/
theorem stop_sniffer_not_isolated :
    stop_sniffer c3Sniffers = ([0], some 0) ∧
    (1 : Nat) ∉ (stop_sniffer c3Sniffers).1 := by
  refine ⟨rfl, ?_⟩
  decide

/-- **C3** (amended): observer hook failures are not isolated — a raising stop
hook propagates to the caller and skips the remaining observers (see the
counterexample); only when every observer's stop hook returns normally does
every observer receive the stop call, in attachment order, with no exception
reaching the caller. -/
theorem stop_sniffer_all_called (sniffers : List SnifferSpec)
    (h : ∀ s ∈ sniffers, s.stopFails = false) :
    stop_sniffer sniffers = (sniffers.map SnifferSpec.sid, none) := by
  induction sniffers with
  | nil => rfl
  | cons s rest ih =>
    have hs : s.stopFails = false := h s (by simp)
    have hrest : ∀ i ∈ rest, i.stopFails = false := fun i hi => h i (by simp [hi])
    simp [stop_sniffer, hs, ih hrest]

/-- Witness for `stop_sniffer_all_called`: two healthy observers both receive
the stop call. -/
theorem stop_sniffer_all_called_witness :
    stop_sniffer [{ sid := 3, stopFails := false }, { sid := 4, stopFails := false }]
      = ([3, 4], none) := by
  have := stop_sniffer_all_called
    [{ sid := 3, stopFails := false }, { sid := 4, stopFails := false }] (by decide)
  simpa using this

/-- **C4** (counterexample): the agent offers keys 0 and 1, the server rejects
key 0 but would accept key 1 and the file key 2; the code tries only
`keys[0]`, then prompts for a password — it never tries agent key 1 ("first
accepted key wins" fails) and never tries the private-key file ("a remotely
rejected method causes the chain to proceed to the next method" fails). -/
theorem auth_chain_counterexample :
    session_auth_trace c4accepts c4env =
      [AuthEvent.auth_publickey { kid := 0 }, AuthEvent.auth_password_prompted] ∧
    c4accepts { kid := 1 } = true ∧
    AuthEvent.auth_publickey { kid := 1 } ∉ session_auth_trace c4accepts c4env ∧
    c4accepts { kid := 2 } = true ∧
    AuthEvent.auth_publickey { kid := 2 } ∉ session_auth_trace c4accepts c4env ∧
    AuthEvent.auth_password_prompted ∈ session_auth_trace c4accepts c4env := by
  decide

/-- **C4** (amended): the chain selects a single key — the agent's *first* key
when the agent offers any (without testing other agent keys against the
server), else the private-key file (a loading failure raises and no password
is ever prompted).  If the selected key is accepted, no other method is
attempted; if it is remotely rejected, the chain falls through to the
interactive password prompt (never to the key file). -/
theorem session_auth_chain (accepts : Key → Bool) (env : AuthEnv) :
    (∀ k ks, env.agentKeys = k :: ks → accepts k = true →
      session_auth_trace accepts env = [AuthEvent.auth_publickey k]) ∧
    (∀ kf, env.agentKeys = [] → env.fileKey = some kf → accepts kf = true →
      AuthEvent.auth_password_prompted ∉ session_auth_trace accepts env) ∧
    (∀ k ks, env.agentKeys = k :: ks → accepts k = false →
      session_auth_trace accepts env =
        [AuthEvent.auth_publickey k, AuthEvent.auth_password_prompted]) ∧
    (env.agentKeys = [] → env.fileKey = none →
      session_auth_trace accepts env = [AuthEvent.invalid_key_error]) := by
  refine ⟨?_, ?_, ?_, ?_⟩
  · intro k ks hk ha
    simp [session_auth_trace, get_priv_key, hk, start_session_auth, ha]
  · intro kf hk hf ha
    simp [session_auth_trace, get_priv_key, hk, hf, start_session_auth, ha]
  · intro k ks hk ha
    simp [session_auth_trace, get_priv_key, hk, start_session_auth, ha]
  · intro hk hf
    simp [session_auth_trace, get_priv_key, hk, hf]

/-- Witness for `session_auth_chain`: an agent holding one acceptable key
authenticates with it and nothing else. -/
theorem session_auth_chain_witness :
    session_auth_trace (fun _ => true) { agentKeys := [{ kid := 9 }], fileKey := none }
      = [AuthEvent.auth_publickey { kid := 9 }] :=
  (session_auth_chain (fun _ => true) { agentKeys := [{ kid := 9 }], fileKey := none }).1
    { kid := 9 } [] rfl rfl

/-! ## Shared teardown lemmas -/

theorem start_session_cleanup_noFail (f : FailSpec)
    (h0 : f.bodyRaises = false) (h1 : f.channelCloseFails = false)
    (h2 : f.callbackFails = false) (h3 : f.transportCloseFails = false)
    (h4 : f.socketCloseFails = false) :
    start_session_cleanup f =
      ([CleanupAct.closeChannel, CleanupAct.invokeCallback, CleanupAct.closeTransport,
        CleanupAct.closeSocket, CleanupAct.invokeCallback, CleanupAct.closeTransport,
        CleanupAct.closeSocket], false) := by
  simp [start_session_cleanup, start_session_inner_cleanup, runSeq, h0, h1, h2, h3, h4]

theorem start_session_cleanup_bodyRaised (f : FailSpec)
    (h0 : f.bodyRaises = true) (h2 : f.callbackFails = false)
    (h3 : f.transportCloseFails = false) (h4 : f.socketCloseFails = false) :
    start_session_cleanup f =
      ([CleanupAct.invokeCallback, CleanupAct.closeTransport, CleanupAct.closeSocket],
       true) := by
  simp [start_session_cleanup, start_session_inner_cleanup, runSeq, h0, h2, h3, h4]

/-- **C5** (counterexample): on the fully successful run the cleanup sequence
is channel-close, *callback*, transport-close, socket-close, then the finally
block's callback, transport-close, socket-close again — not the claimed
channel → transport → socket → callback order; and when the session body and
the callback both raise, the transport and socket close calls are never
attempted at all, refuting "each step is attempted even if an earlier step
raised". -/
theorem cleanup_order_counterexample :
    (start_session_cleanup allOk).1 =
      [CleanupAct.closeChannel, CleanupAct.invokeCallback, CleanupAct.closeTransport,
       CleanupAct.closeSocket, CleanupAct.invokeCallback, CleanupAct.closeTransport,
       CleanupAct.closeSocket] ∧
    (start_session_cleanup allOk).1 ≠
      [CleanupAct.closeChannel, CleanupAct.closeTransport, CleanupAct.closeSocket,
       CleanupAct.invokeCallback] ∧
    start_session_cleanup bodyAndCallbackFail = ([CleanupAct.invokeCallback], true) ∧
    CleanupAct.closeTransport ∉ (start_session_cleanup bodyAndCallbackFail).1 ∧
    CleanupAct.closeSocket ∉ (start_session_cleanup bodyAndCallbackFail).1 := by
  decide

/-- **C5** (amended): when no cleanup step itself raises, a successful body is
followed by channel-close, completion callback, transport-close, socket-close
and then — the `finally` block — callback, transport-close and socket-close
once more; a body that raised gets only the finally block's callback,
transport-close, socket-close, with the exception still propagating (nothing
is logged-and-swallowed at this level).  Steps are not individually protected:
a raising step skips the remainder of its own sequence (counterexample). -/
theorem start_session_cleanup_sequence (f : FailSpec)
    (h : f.channelCloseFails = false ∧ f.callbackFails = false ∧
         f.transportCloseFails = false ∧ f.socketCloseFails = false) :
    start_session_cleanup f =
      (if f.bodyRaises then
        [CleanupAct.invokeCallback, CleanupAct.closeTransport, CleanupAct.closeSocket]
       else
        [CleanupAct.closeChannel, CleanupAct.invokeCallback, CleanupAct.closeTransport,
         CleanupAct.closeSocket, CleanupAct.invokeCallback, CleanupAct.closeTransport,
         CleanupAct.closeSocket], f.bodyRaises) := by
  obtain ⟨h1, h2, h3, h4⟩ := h
  cases hb : f.bodyRaises with
  | false => rw [start_session_cleanup_noFail f hb h1 h2 h3 h4]; simp
  | true => rw [start_session_cleanup_bodyRaised f hb h2 h3 h4]; simp

/-- Witness for `start_session_cleanup_sequence` on the all-success run. -/
theorem start_session_cleanup_sequence_witness :
    start_session_cleanup allOk =
      ([CleanupAct.closeChannel, CleanupAct.invokeCallback, CleanupAct.closeTransport,
        CleanupAct.closeSocket, CleanupAct.invokeCallback, CleanupAct.closeTransport,
        CleanupAct.closeSocket], false) := by
  have := start_session_cleanup_sequence allOk (by decide)
  simpa [allOk] using this

/-- **C6** (counterexample): on the fully successful run the completion
callback is invoked twice, not exactly once, and its first invocation is the
second cleanup action — before the transport and socket are closed, i.e. before
teardown completes. -/
theorem completion_callback_not_once :
    (start_session_cleanup allOk).1.count CleanupAct.invokeCallback = 2 ∧
    (start_session_cleanup allOk).1.count CleanupAct.invokeCallback ≠ 1 ∧
    (start_session_cleanup allOk).1.take 2 =
      [CleanupAct.closeChannel, CleanupAct.invokeCallback] ∧
    CleanupAct.closeTransport ∉ (start_session_cleanup allOk).1.take 2 := by
  decide

/-- **C6** (amended): `close_session` never raises, so a second call produces
no double-close error, but the calls are not absorbed — each one invokes the
completion callback again; accordingly a successful session run fires the
callback twice (once before the transport and socket close and once after),
not exactly once after teardown completes. -/
theorem close_session_repeatable (f : FailSpec) (log : List Nat) (sid : Nat)
    (h : f.bodyRaises = false ∧ f.channelCloseFails = false ∧ f.callbackFails = false ∧
         f.transportCloseFails = false ∧ f.socketCloseFails = false) :
    (start_session_cleanup f).1.count CleanupAct.invokeCallback = 2 ∧
    close_session (close_session log sid) sid = log ++ [sid, sid] ∧
    close_session (close_session log sid) sid ≠ close_session log sid := by
  obtain ⟨h0, h1, h2, h3, h4⟩ := h
  rw [start_session_cleanup_noFail f h0 h1 h2 h3 h4]
  refine ⟨by decide, by simp [close_session], ?_⟩
  simp [close_session]

/-- Witness for `close_session_repeatable` on the all-success run. -/
theorem close_session_repeatable_witness :
    (start_session_cleanup allOk).1.count CleanupAct.invokeCallback = 2 ∧
    close_session (close_session [] 7) 7 = [7, 7] := by
  have := close_session_repeatable allOk [] 7 (by decide)
  exact ⟨this.1, this.2.1⟩

/-- **C7** (counterexample): `ghost=1` contains no `host=` *token*, so the
claim requires interactive/host-picker mode; but `is_proxy = 'host=' in
command` is a substring test, the proxy branch is taken, no term starts with
`host=`, and `assert host is not None` fires — the gateway crashes instead of
entering interactive mode. -/
theorem mainDispatch_ghost_not_interactive :
    mainDispatch cmdGhost = DispatchMode.assertFailed ∧
    mainDispatch cmdGhost ≠ DispatchMode.interactive := by
  refine ⟨rfl, ?_⟩
  decide

/-- **C7** (amended): `host=db1 port=2222` yields a session targeting host
`db1` on port `2222`; `host=db1` alone defaults the port to 22; and a command
with no `host=` *substring* enters interactive/host-picker mode.  (A command
containing `host=` as a substring but with no `host=`-initial token fails the
`assert host is not None` instead — see the counterexample.) -/
theorem mainDispatch_modes :
    mainDispatch cmdHostPort = DispatchMode.proxy hostDb1 2222 ∧
    mainDispatch cmdHostOnly = DispatchMode.proxy hostDb1 22 ∧
    (∀ cmd, containsHostEq (pyStrip cmd) = false →
      mainDispatch cmd = DispatchMode.interactive) := by
  refine ⟨by decide, by decide, ?_⟩
  intro cmd h
  unfold mainDispatch
  simp [h]

/-- Witness for `mainDispatch_modes`: the command `ls` (no `host=` substring)
goes interactive. -/
theorem mainDispatch_modes_witness :
    mainDispatch ['l', 's'] = DispatchMode.interactive :=
  mainDispatch_modes.2.2 ['l', 's'] (by decide)

/-- **C8** (counterexample): with no importable `idp.ldap` module, `getIdP`
fails with the interpreter's generic `ImportError`, not with a typed
`ProviderNotFound`. -/
theorem getIdP_generic_import_error :
    getIdP { mods := [] } "ldap" = Except.error (PyExc.importError "idp.ldap") ∧
    isTypedProviderError (PyExc.importError "idp.ldap") = false := by
  exact ⟨rfl, rfl⟩

/-- **C8** (amended): every failure of `getIdP` is one of the interpreter's
generic exceptions — `ImportError` when the module name cannot be resolved,
`AttributeError` when the module lacks the class — never a typed
`ProviderNotFound` or `ProviderLoadError`, which the code does not define. -/
theorem getIdP_errors_generic (env : PyModules) (choice : String) (e : PyExc)
    (h : getIdP env choice = Except.error e) :
    (∃ m, e = PyExc.importError m) ∨ (∃ a, e = PyExc.attributeError a) := by
  simp only [getIdP] at h
  rcases hc : env.mods.lookup ("idp." ++ choice) with _ | attrs
  · rw [hc] at h
    exact Or.inl ⟨"idp." ++ choice, by injection h with h'; exact h'.symm⟩
  · rw [hc] at h
    dsimp only at h
    by_cases hct : attrs.contains choice = true
    · rw [if_pos hct] at h
      exact (Except.noConfusion h)
    · rw [if_neg hct] at h
      exact Or.inr ⟨choice, by injection h with h'; exact h'.symm⟩

/-- Witness for `getIdP_errors_generic` at the empty module environment. -/
theorem getIdP_errors_generic_witness :
    (∃ m, PyExc.importError "idp.x" = PyExc.importError m) ∨
    (∃ a, PyExc.importError "idp.x" = PyExc.attributeError a) :=
  getIdP_errors_generic { mods := [] } "x" (PyExc.importError "idp.x") rfl

/-! ## Resize-propagation lemmas -/

theorem deliverResizes_resizeCalls (sn : List Nat) (st : PtyState) (notes : List (Nat × Nat)) :
    (deliverResizes sn st notes).resizeCalls =
      st.resizeCalls ++ notes.flatMap (fun d => sn.map (fun s => (s, d.1, d.2))) := by
  induction notes generalizing st with
  | nil => simp [deliverResizes]
  | cons d rest ih =>
    simp [deliverResizes] at ih ⊢
    rw [ih]
    simp [sigwinch, List.append_assoc]

theorem deliverResizes_ptySize (sn : List Nat) (st : PtyState) (notes : List (Nat × Nat)) :
    (deliverResizes sn st notes).ptySize = notes.getLast?.getD st.ptySize := by
  induction notes generalizing st with
  | nil => simp [deliverResizes]
  | cons d rest ih =>
    have hstep : deliverResizes sn st (d :: rest) = deliverResizes sn (sigwinch sn st d) rest := by
      simp [deliverResizes]
    rw [hstep, ih]
    cases rest with
    | nil => simp [sigwinch]
    | cons e tail =>
      rw [List.getLast?_cons_cons,
          List.getLast?_eq_getLast_of_ne_nil (List.cons_ne_nil e tail)]
      rfl

/-- **C9** (confirmed): for any nonempty sequence of resize notifications the
remote pseudo-terminal's final size equals the last notification, and the
observer resize-hook trace is exactly one call per observer per notification,
carrying the new dimensions, in notification order (attachment order within a
notification). -/
theorem sigwinch_resize_propagation (sn : List Nat) (st0 : PtyState)
    (notes : List (Nat × Nat)) (h : notes ≠ []) :
    (deliverResizes sn st0 notes).ptySize = notes.getLast h ∧
    (deliverResizes sn st0 notes).resizeCalls =
      st0.resizeCalls ++ notes.flatMap (fun d => sn.map (fun s => (s, d.1, d.2))) := by
  refine ⟨?_, deliverResizes_resizeCalls sn st0 notes⟩
  rw [deliverResizes_ptySize, List.getLast?_eq_getLast_of_ne_nil h]
  rfl

/-- Witness for `sigwinch_resize_propagation`: two notifications leave the
remote pseudo-terminal at the second one's size. -/
theorem sigwinch_resize_propagation_witness :
    (deliverResizes [1] { ptySize := (80, 24), resizeCalls := [] }
      [(100, 30), (120, 40)]).ptySize = (120, 40) := by
  have := sigwinch_resize_propagation [1] { ptySize := (80, 24), resizeCalls := [] }
    [(100, 30), (120, 40)] (by decide)
  exact this.1.trans (by decide)

/-- **C10** (counterexample): `_start_session` calls
`channel.exec_command(command)` *before* `run_command` feeds the command to the
observers: in the event trace the execution precedes every stdin-hook
delivery, refuting "before the remote command is executed". -/
theorem run_command_after_exec :
    execPathEvents [0] [42] =
      [StartEv.execCmd [42], StartEv.stdinHook 0 [42], StartEv.loopStart] ∧
    (execPathEvents [0] [42]).take 1 = [StartEv.execCmd [42]] ∧
    StartEv.stdinHook 0 [42] ∉ (execPathEvents [0] [42]).take 1 := by
  decide

/-- **C10** (amended): in non-interactive mode the remote command is issued
first (`exec_command`); then, before the multiplexing loop starts, the full
command string is delivered exactly once to every attached observer's stdin
hook in attachment order — so the executed command itself appears in the audit
stream, every loop hook call coming after it. -/
theorem run_command_audits_command (sn : List Nat) (cmd : List Nat) (tty0 : Nat)
    (iters : List Iter) :
    execPathEvents sn cmd =
      StartEv.execCmd cmd ::
        (sn.map (fun s => StartEv.stdinHook s cmd) ++ [StartEv.loopStart]) ∧
    (run_command sn cmd tty0 iters).1.hookCalls =
      sn.map (fun s => HookCall.stdin_filter s cmd) ++ loopHooks sn iters ∧
    (sn.Nodup → ∀ s ∈ sn,
      (sn.map (fun x => HookCall.stdin_filter x cmd)).count
        (HookCall.stdin_filter s cmd) = 1) := by
  refine ⟨rfl, ?_, ?_⟩
  · unfold run_command interactive_shellFrom
    simp [runLoop_hookCalls, initState]
  · intro hnd s hs
    have hinj : Function.Injective (fun x => HookCall.stdin_filter x cmd) := by
      intro a b hab
      simpa using hab
    exact (List.count_map_of_injective sn _ hinj s).trans
      (List.count_eq_one_of_mem hnd hs)

/-- Witness for `run_command_audits_command`: with observers 2 and 5 attached,
observer 2's stdin hook sees the command exactly once. -/
theorem run_command_audits_command_witness :
    ([2, 5].map (fun x => HookCall.stdin_filter x [1])).count
      (HookCall.stdin_filter 2 [1]) = 1 :=
  (run_command_audits_command [2, 5] [1] 0 []).2.2 (by decide) 2 (by decide)

end Aker
